import Mathlib

/-!
Verification of the two command-line utilities in this repository:

* `process_facts.py` — `StorageFactsProcessor`, which loads an aggregated
  storage-facts JSON document and offers summary / extract / filter /
  count / export / validate / diff operations over it;
* `gather_all_facts.py` — `StorageFactsAggregator`, which generates an
  Ansible playbook from a fixed category-to-module table, runs it, and
  verifies the aggregate output file.

The JSON values the scripts manipulate are embedded as the inductive
`Json` below.  Python `dict`s are association lists with distinct keys
kept in insertion order; `dict.get` is `Json.getOpt`.  JSON numbers are
modelled as integers: no behaviour verified here depends on non-integer
numbers.  File writes are modelled by recording the JSON value whose
serialization is written; the Python `json` library's dump/load round
trip is the identity on such values, so reading a written file back is
modelled as retrieving the recorded value.
-/

/-- A JSON value as Python's `json` module produces it: `None`, `bool`,
`int`, `str`, `list`, `dict` (an association list with distinct keys in
insertion order). -/
inductive Json where
  | null
  | bool (b : Bool)
  | num (n : Int)
  | str (s : String)
  | arr (elems : List Json)
  | obj (fields : List (String × Json))
deriving Repr

namespace Json

/-- Python truthiness (`bool(v)`) of a JSON value: `None`, `False`, `0`,
`""`, `[]` and `{}` are falsy, everything else truthy.  Used by
`summary`'s `1 if data_list else 0` branch. -/
def truthy : Json → Bool
  | .null => false
  | .bool b => b
  | .num n => n != 0
  | .str s => s != ""
  | .arr elems => !elems.isEmpty
  | .obj fields => !fields.isEmpty

/-- `isinstance(v, dict)`. -/
def isObj : Json → Bool
  | .obj _ => true
  | _ => false

/-- `isinstance(v, list)`. -/
def isArr : Json → Bool
  | .arr _ => true
  | _ => false

/-- `d.get(key)` on a Python dict, returning `none` (Python `None`) when
the key is absent.  Keys of a Python dict are distinct, so first-match
lookup is the dict lookup. -/
def getOpt (fields : List (String × Json)) (key : String) : Option Json :=
  match fields with
  | [] => none
  | (k, v) :: rest => if k = key then some v else getOpt rest key

end Json

/-- Code-point-wise lexicographic comparison of character lists, the
order Python's `sorted` uses on strings. -/
def charListLe : List Char → List Char → Bool
  | [], _ => true
  | _ :: _, [] => false
  | a :: as, b :: bs =>
    if a.toNat = b.toNat then charListLe as bs
    else decide (a.toNat < b.toNat)

/-- Python's string order (`a <= b`): lexicographic on code points. -/
def strLe (a b : String) : Bool := charListLe a.data b.data

/-- Python `sorted` on a list of strings. -/
def sortStrings (l : List String) : List String :=
  List.insertionSort (fun a b => strLe a b = true) l

namespace StorageFactsProcessor

/-- The per-category item count computed inside `summary`
(`process_facts.py` lines 57–64): a `dict` category takes
`content.get('data', [])`; a list counts its length, and any other value
counts `1 if data_list else 0`, i.e. by Python truthiness (an absent
`'data'` defaults to `[]`, length 0).  A non-`dict` category counts 0. -/
def summaryCount (content : Json) : Nat :=
  match content with
  | .obj cfields =>
    match Json.getOpt cfields "data" with
    | some (.arr elems) => elems.length
    | some v => if v.truthy then 1 else 0
    | none => 0
  | _ => 0

/-- `summary` (`process_facts.py` lines 45–71): iterates
`sorted(self.data.items())`, printing the per-category count, and
accumulates the printed total.  Python compares the `(key, value)`
tuples by their first components only, the keys being distinct.
Returns the printed breakdown and the printed total. -/
def summary (fields : List (String × Json)) : List (String × Nat) × Nat :=
  let sortedFields := List.insertionSort (fun a b : String × Json => strLe a.1 b.1 = true) fields
  let breakdown := sortedFields.map (fun p => (p.1, summaryCount p.2))
  (breakdown, (breakdown.map Prod.snd).sum)

/-- The item count computed by `count` (`process_facts.py` lines
167–177): a `dict` category takes `content.get('data', [])`; a list
counts its length, a `dict` counts 1, anything else 0.  A non-`dict`
category counts 0. -/
def countCount (content : Json) : Nat :=
  match content with
  | .obj cfields =>
    match Json.getOpt cfields "data" with
    | some (.arr elems) => elems.length
    | some (.obj _) => 1
    | _ => 0
  | _ => 0

/-- `count(category)` (`process_facts.py` lines 161–179): errors when
the category is absent, otherwise reports `countCount` of its value. -/
def count (fields : List (String × Json)) (category : String) :
    Except String Nat :=
  match Json.getOpt fields category with
  | none => .error ("Category " ++ category ++ " not found")
  | some content => .ok (countCount content)

/-- `extract(category, output_file)` (`process_facts.py` lines 73–84):
when the category is present its value is written verbatim with
`json.dump`; when absent, the script prints `Category ... not found`
followed by the sorted list of available categories and exits with
status 1.  The error value carries that sorted listing. -/
def extract (fields : List (String × Json)) (category : String) :
    Except (List String) Json :=
  match Json.getOpt fields category with
  | none => .error (sortStrings (fields.map Prod.fst))
  | some v => .ok v

/-- `item.get(key)` for a filter/export item: a dict looks the key up,
any other value has no fields. -/
def itemGet (item : Json) (key : String) : Option Json :=
  match item with
  | .obj ifields => Json.getOpt ifields key
  | _ => none

/-- Python `item.get(key) == value` where `value` is a `str` (it comes
from the command line): true exactly when the looked-up JSON value is a
string with the same characters.  `None`, booleans, numbers, lists and
dicts never compare equal to a Python `str`. -/
def pyEqStr (v : Option Json) (value : String) : Bool :=
  match v with
  | some (.str s) => s == value
  | _ => false

/-- The predicate of `filter`'s list comprehension
(`process_facts.py` line 110):
`isinstance(item, dict) and item.get(key) == value`. -/
def keepItem (key value : String) (item : Json) : Bool :=
  item.isObj && pyEqStr (itemGet item key) value

/-- `filter(category, key, value, output_file)` (`process_facts.py`
lines 94–117).  Errors (each `sys.exit(1)` in the source): category
absent; category value not a dict or lacking `'data'`; `'data'` not a
list.  On success the value written to the output file is
`{"data": <kept items>}`. -/
def filter (fields : List (String × Json)) (category key value : String) :
    Except String Json :=
  match Json.getOpt fields category with
  | none => .error ("Category " ++ category ++ " not found")
  | some data =>
    match data with
    | .obj dfields =>
      match Json.getOpt dfields "data" with
      | none => .error ("Category " ++ category ++ " has unexpected structure")
      | some (.arr items) =>
        .ok (.obj [("data", .arr (items.filter (keepItem key value)))])
      | some _ => .error ("Data in " ++ category ++ " is not a list")
    | _ => .error ("Category " ++ category ++ " has unexpected structure")

/-- The warning `validate` (`process_facts.py` lines 132–141) records
for one category, if any: the value is not a dict; the dict lacks
`'data'`; `'data'` is neither a list nor a dict. -/
def categoryWarning (category : String) (content : Json) : Option String :=
  match content with
  | .obj cfields =>
    match Json.getOpt cfields "data" with
    | some (.arr _) => none
    | some (.obj _) => none
    | some _ => some ("Category " ++ category ++ " data is neither list nor dict")
    | none => some ("Category " ++ category ++ " missing data key")
  | _ => some ("Category " ++ category ++ " is not a dictionary")

/-- The warnings `validate` prints for a dict-shaped document, in
category order. -/
def validateWarnings (fields : List (String × Json)) : List String :=
  fields.filterMap (fun p => categoryWarning p.1 p.2)

/-- `item.keys()` of an export item; non-dict items have none. -/
def itemKeys (item : Json) : List String :=
  match item with
  | .obj ifields => ifields.map Prod.fst
  | _ => []

/-- One CSV data row as `csv.DictWriter._dict_to_list` produces it: per
field name, `rowdict.get(key, restval)` with the default
`restval = None`; `none` stands for that `None`. -/
def csvRow (fieldnames : List String) (item : Json) : List (Option Json) :=
  fieldnames.map (fun key => itemGet item key)

/-- Python `repr` of a JSON value, used for container elements; the
escaping `repr` performs on special characters inside strings is not
modelled, as no verified behaviour depends on it. -/
def pyRepr : Json → String
  | .null => "None"
  | .bool b => if b then "True" else "False"
  | .num n => toString n
  | .str s => "\x27" ++ s ++ "\x27"
  | .arr elems =>
    "[" ++ String.intercalate ", " (elems.attach.map (fun e => pyRepr e.1)) ++ "]"
  | .obj fields =>
    "\x7b" ++ String.intercalate ", "
      (fields.attach.map (fun p => "\x27" ++ p.1.1 ++ "\x27: " ++ pyRepr p.1.2)) ++ "\x7d"
decreasing_by
  · simp_wf
    have h := List.sizeOf_lt_of_mem e.2
    omega
  · simp_wf
    have h := List.sizeOf_lt_of_mem p.2
    obtain ⟨⟨k, v⟩, hm⟩ := p
    simp_all
    omega

/-- `str(v)` of a JSON value, as the csv writer renders non-`None`
cells: strings are written bare, containers via `repr`. -/
def pyStr : Json → String
  | .str s => s
  | v => pyRepr v

/-- The text the csv writer puts in one field: `None` — both the
`restval` standing for a missing key and an explicit JSON null — is
written as an empty field; any other value is written as `str(v)`. -/
def csvCell : Option Json → String
  | none => ""
  | some .null => ""
  | some v => pyStr v

/-- How `export_csv` fails: a clean `sys.exit(1)` with a message before
any file is opened, or the uncaught `AttributeError` that
`csv.DictWriter` raises on a non-dict row (`rowdict.keys()` /
`rowdict.get` on a value without those methods), which kills the
process with a traceback after the header and any earlier rows were
already written.  Either way the process exit status is nonzero. -/
inductive ExportError where
  | cleanError (message : String)
  | writerCrash
deriving Repr, DecidableEq

/-- `export_csv(category, output_file)` (`process_facts.py` lines
181–213).  Clean errors: category absent; value not a dict with
`'data'`; `'data'` not a list or an empty list.  `fieldnames` is
`sorted(set)` of the keys of every dict item.  `writer.writerows(items)`
produces one row per item but raises on the first non-dict item.  On
success the result is the header row and the data rows handed to the
csv writer. -/
def export_csv (fields : List (String × Json)) (category : String) :
    Except ExportError (List String × List (List (Option Json))) :=
  match Json.getOpt fields category with
  | none => .error (.cleanError ("Category " ++ category ++ " not found"))
  | some content =>
    match content with
    | .obj cfields =>
      match Json.getOpt cfields "data" with
      | none => .error (.cleanError ("Category " ++ category ++ " has unexpected structure"))
      | some (.arr items) =>
        if items.isEmpty then
          .error (.cleanError ("No items to export from " ++ category))
        else
          let fieldnames := sortStrings (items.flatMap itemKeys).dedup
          if items.all Json.isObj then
            .ok (fieldnames, items.map (csvRow fieldnames))
          else
            .error .writerCrash
      | some _ => .error (.cleanError ("No items to export from " ++ category))
    | _ => .error (.cleanError ("Category " ++ category ++ " has unexpected structure"))

/-- The outcome of `_load_json` (`process_facts.py` lines 33–43), run by
the `StorageFactsProcessor` constructor before any command: the parsed
document, or one of the two failure modes on which the script prints an
error and calls `sys.exit(1)`. -/
inductive LoadResult where
  | ok (doc : Json)
  | fileNotFound
  | invalidJson

/-- A subcommand of `process_facts.py`'s CLI (`main`, lines 265–365). -/
inductive Command where
  | summaryCmd
  | listCmd
  | validateCmd
  | extractCmd (category output : String)
  | countCmd (category : String)
  | filterCmd (category key value output : String)
  | exportCmd (category output : String)
  | diffCmd

/-- The observable outcome of one `process_facts.py` invocation: the
process exit status, the JSON files written (path and the value whose
serialization was written — the `json` round trip returns that value),
and the paths opened for CSV output.  An uncaught Python exception
terminates the interpreter with exit status 1; those terminations are
modelled by exit code 1 as well. -/
structure Outcome where
  exitCode : Nat
  jsonWrites : List (String × Json)
  csvWrites : List String
deriving Repr

/-- One full run of `process_facts.py` (`main`, lines 265–365), given
the command, the load outcome of the `-f` input file, and — used only
by `diff` — the load outcome of the `-c` comparison file.

A load failure exits with status 1 before the command does any work.

On a document whose root is not a dict, every command terminates with
status 1 without writing a complete output file: `summary`, `list`,
`validate` and `diff` call `.items()`/`.keys()` on the root
(`AttributeError`); `extract`, `count`, `filter` and `export` either
fail their `category not in self.data` membership test and exit
cleanly, or reach an indexing/membership operation that raises
(`TypeError`, or `AttributeError` while listing `self.data.keys()`).

`validate` on a dict root returns `return_code = 0` (its `errors` list
can only be filled by a non-dict root) and `main` discards the returned
code anyway, so the process exits 0 whatever warnings were printed.

`diff` loads the comparison file before touching either document and
exits 1 on its failure; with both documents loaded it prints the
comparison and exits 0 when both roots are dicts. -/
def runCommand (cmd : Command) (load compareLoad : LoadResult) : Outcome :=
  match load with
  | .fileNotFound => ⟨1, [], []⟩
  | .invalidJson => ⟨1, [], []⟩
  | .ok doc =>
    match cmd with
    | .summaryCmd =>
      match doc with
      | .obj _ => ⟨0, [], []⟩
      | _ => ⟨1, [], []⟩
    | .listCmd =>
      match doc with
      | .obj _ => ⟨0, [], []⟩
      | _ => ⟨1, [], []⟩
    | .validateCmd =>
      match doc with
      | .obj _ => ⟨0, [], []⟩
      | _ => ⟨1, [], []⟩
    | .extractCmd category output =>
      match doc with
      | .obj fields =>
        match StorageFactsProcessor.extract fields category with
        | .ok v => ⟨0, [(output, v)], []⟩
        | .error _ => ⟨1, [], []⟩
      | _ => ⟨1, [], []⟩
    | .countCmd category =>
      match doc with
      | .obj fields =>
        match StorageFactsProcessor.count fields category with
        | .ok _ => ⟨0, [], []⟩
        | .error _ => ⟨1, [], []⟩
      | _ => ⟨1, [], []⟩
    | .filterCmd category key value output =>
      match doc with
      | .obj fields =>
        match StorageFactsProcessor.filter fields category key value with
        | .ok result => ⟨0, [(output, result)], []⟩
        | .error _ => ⟨1, [], []⟩
      | _ => ⟨1, [], []⟩
    | .exportCmd category output =>
      match doc with
      | .obj fields =>
        match StorageFactsProcessor.export_csv fields category with
        | .ok _ => ⟨0, [], [output]⟩
        | .error (.cleanError _) => ⟨1, [], []⟩
        | .error .writerCrash => ⟨1, [], [output]⟩
      | _ => ⟨1, [], []⟩
    | .diffCmd =>
      match compareLoad with
      | .fileNotFound => ⟨1, [], []⟩
      | .invalidJson => ⟨1, [], []⟩
      | .ok other =>
        match doc, other with
        | .obj _, .obj _ => ⟨0, [], []⟩
        | _, _ => ⟨1, [], []⟩

namespace StorageFactsAggregator

/-- What one aggregator run can observe of the external
`ansible-playbook` execution (`gather_all_facts.py`): the subprocess
return code, whether the configured output file exists afterwards, and
whether its contents parse as JSON (`json.load` raises otherwise;
meaningful only when the file exists). -/
structure ExecOutcome where
  returncode : Int
  outputExists : Bool
  outputParses : Bool
deriving Repr, DecidableEq

/-- `StorageFactsAggregator.run` (`gather_all_facts.py` lines 169–226):
generates and runs the playbook, then reports success only if the
subprocess returned 0, the output file exists, and `json.load` accepts
it (a raised exception is caught and reported as failure). -/
def run (env : ExecOutcome) : Bool :=
  if env.returncode = 0 then
    if env.outputExists then env.outputParses else false
  else false

/-- `StorageFactsAggregator.run_simple` (`gather_all_facts.py` lines
228–257): runs the pre-existing role playbook and reports success
exactly when the subprocess returned 0; the output file is never
checked. -/
def run_simple (env : ExecOutcome) : Bool :=
  decide (env.returncode = 0)

/-- The process exit status of `gather_all_facts.py`'s `main`
(lines 260–332): `sys.exit(0 if success else 1)`, where success comes
from `run_simple` in `--use-role` mode and from `run` otherwise. -/
def mainExit (useRole : Bool) (env : ExecOutcome) : Nat :=
  if (if useRole then run_simple env else run env) then 0 else 1

/-- The fixed category-to-module table `FACTS_MODULES`
(`gather_all_facts.py` lines 30–61), in its insertion order — the order
`generate_playbook` iterates. -/
def FACTS_MODULES : List (String × String) := [
  ("audit_log_transfer_dest", "hitachivantara.vspone_block.vsp.hv_audit_log_transfer_dest_facts"),
  ("clpr", "hitachivantara.vspone_block.vsp.hv_clpr_facts"),
  ("disk_drives", "hitachivantara.vspone_block.vsp.hv_disk_drive_facts"),
  ("external_parity_groups", "hitachivantara.vspone_block.vsp.hv_external_paritygroup_facts"),
  ("external_path_groups", "hitachivantara.vspone_block.vsp.hv_external_path_group_facts"),
  ("external_volumes", "hitachivantara.vspone_block.vsp.hv_external_volume_facts"),
  ("host_groups", "hitachivantara.vspone_block.vsp.hv_hg_facts"),
  ("iscsi_remote_connections", "hitachivantara.vspone_block.vsp.hv_iscsi_remote_connection_facts"),
  ("iscsi_targets", "hitachivantara.vspone_block.vsp.hv_iscsi_target_facts"),
  ("journals", "hitachivantara.vspone_block.vsp.hv_journal_facts"),
  ("journal_volumes", "hitachivantara.vspone_block.vsp.hv_journal_volume_facts"),
  ("ldevs", "hitachivantara.vspone_block.vsp.hv_ldev_facts"),
  ("microprocessors", "hitachivantara.vspone_block.vsp.hv_mp_facts"),
  ("parity_groups", "hitachivantara.vspone_block.vsp.hv_paritygroup_facts"),
  ("quorum_disks", "hitachivantara.vspone_block.vsp.hv_quorum_disk_facts"),
  ("remote_connections", "hitachivantara.vspone_block.vsp.hv_remote_connection_facts"),
  ("resource_groups", "hitachivantara.vspone_block.vsp.hv_resource_group_facts"),
  ("server_priority_managers", "hitachivantara.vspone_block.vsp.hv_server_priority_manager_facts"),
  ("shadow_image_groups", "hitachivantara.vspone_block.vsp.hv_shadow_image_group_facts"),
  ("shadow_image_pairs", "hitachivantara.vspone_block.vsp.hv_shadow_image_pair_facts"),
  ("snapshots", "hitachivantara.vspone_block.vsp.hv_snapshot_facts"),
  ("snapshot_groups", "hitachivantara.vspone_block.vsp.hv_snapshot_group_facts"),
  ("snmp_settings", "hitachivantara.vspone_block.vsp.hv_snmp_settings_facts"),
  ("storage_ports", "hitachivantara.vspone_block.vsp.hv_storage_port_facts"),
  ("hardware_installed", "hitachivantara.vspone_block.vsp.hv_storage_system_monitor_facts"),
  ("channel_boards", "hitachivantara.vspone_block.vsp.hv_storage_system_monitor_facts"),
  ("storage_pools", "hitachivantara.vspone_block.vsp.hv_storagepool_facts"),
  ("storage_system", "hitachivantara.vspone_block.vsp.hv_storagesystem_facts"),
  ("users", "hitachivantara.vspone_block.vsp.hv_user_facts"),
  ("user_groups", "hitachivantara.vspone_block.vsp.hv_user_group_facts")]

/-- The `spec:` block two monitor categories carry
(`gather_all_facts.py` lines 103–110): a query string and, for
`hardware_installed` only, `include_component_option: false`. -/
structure QuerySpec where
  query : String
  include_component_option : Option Bool
deriving Repr, DecidableEq

/-- One task of the generated playbook, structurally.  The source emits
these as YAML text; each emitted stanza denotes one of the task forms
below. -/
inductive PlaybookTask where
  /-- A `Get <category>` stanza: invokes `moduleName` with
  `connection_info: "{{ connection_info }}"` when `connectionInfo` is
  true, an optional `spec:` block, `register: <resultVar>`, and
  `ignore_errors` as given. -/
  | getFacts (category moduleName : String) (connectionInfo : Bool)
      (spec : Option QuerySpec) (resultVar : String) (ignoreErrors : Bool)
  /-- A `Set fact for <category>` stanza: stores
  `<resultVar>.get('data', {})` as `all_facts_<category>`, with
  `ignore_errors` as given. -/
  | setFactFor (category resultVar : String) (ignoreErrors : Bool)
  /-- The `Aggregate all facts` stanza: builds `combined_facts` with one
  entry per listed category, keyed by category name, from
  `all_facts_<category>`. -/
  | aggregateFacts (categories : List String)
  /-- The `Display aggregated facts` debug stanza. -/
  | displayDebug
  /-- The `Save facts to JSON file` stanza: writes `combined_facts` as
  JSON to `dest`. -/
  | saveFacts (dest : String)
  /-- The `Confirm file saved` debug stanza. -/
  | confirmSaved
deriving Repr, DecidableEq

/-- The `spec:` block `generate_playbook` attaches to a category's
collection task (`gather_all_facts.py` lines 102–110): present only for
`hardware_installed` (query `"hardware_installed"`,
`include_component_option: false`) and `channel_boards`
(query `"channel_boards"`). -/
def querySpecFor (category : String) : Option QuerySpec :=
  if category = "hardware_installed" then
    some ⟨"hardware_installed", some false⟩
  else if category = "channel_boards" then
    some ⟨"channel_boards", none⟩
  else none

/-- The per-category section of the generated playbook
(`gather_all_facts.py` lines 100–137): for each `FACTS_MODULES` entry in
order, a collection task registering `<category>_result` with
`ignore_errors: true`, then a set-fact task, also with
`ignore_errors: true`. -/
def collectionTasks : List PlaybookTask :=
  FACTS_MODULES.flatMap (fun km =>
    [.getFacts km.1 km.2 true (querySpecFor km.1) (km.1 ++ "_result") true,
     .setFactFor km.1 (km.1 ++ "_result") true])

/-- `generate_playbook` (`gather_all_facts.py` lines 80–167), as the
task list its YAML output denotes: the per-category collection tasks
followed by the aggregation of all categories keyed by name, a debug
message, the save of the combined facts to the configured output file,
and a confirmation message. -/
def generate_playbook (output_file : String) : List PlaybookTask :=
  collectionTasks ++
    [.aggregateFacts (FACTS_MODULES.map Prod.fst),
     .displayDebug,
     .saveFacts output_file,
     .confirmSaved]

/-- Whether a playbook task is tolerant of its own failure
(`ignore_errors: true` in the emitted YAML). -/
def toleratesFailure : PlaybookTask → Bool
  | .getFacts _ _ _ _ _ ignoreErrors => ignoreErrors
  | .setFactFor _ _ ignoreErrors => ignoreErrors
  | _ => false

/-- Whether a task is the collection step for the given category. -/
def isGetFactsFor (category : String) : PlaybookTask → Bool
  | .getFacts c _ _ _ _ _ => c == category
  | _ => false

end StorageFactsAggregator

/-- The per-category summary count as the specification states it: the
length of a list-shaped `data`, `1` for a dict-shaped `data`
*including an empty dict*, and `0` in every other case.  Stated from
the claim's words, for comparison with
`StorageFactsProcessor.summaryCount`. -/
def summaryCountAsClaimed (content : Json) : Nat :=
  match content with
  | .obj cfields =>
    match Json.getOpt cfields "data" with
    | some (.arr elems) => elems.length
    | some (.obj _) => 1
    | _ => 0
  | _ => 0

/-- A category value on which `summary`'s truthiness-based item count
and `count`'s type-based item count coincide: rules out exactly an
object value whose `'data'` field is an empty object (summary 0,
count 1) or a truthy value that is neither a list nor an object
(summary 1, count 0). -/
def dataFieldBenign (content : Json) : Bool :=
  match content with
  | .obj cfields =>
    match Json.getOpt cfields "data" with
    | some (.arr _) => true
    | some (.obj dfields) => !dfields.isEmpty
    | some v => !v.truthy
    | none => true
  | _ => true

/-! ## Helper lemmas -/

theorem charListLe_total (a b : List Char) :
    charListLe a b = true ∨ charListLe b a = true := by
  induction a generalizing b with
  | nil => left; rfl
  | cons x xs ih =>
    cases b with
    | nil => right; rfl
    | cons y ys =>
      simp only [charListLe]
      by_cases hxy : x.toNat = y.toNat
      · have hyx : y.toNat = x.toNat := hxy.symm
        rcases ih ys with h | h
        · left; simp [hxy, h]
        · right; simp [hyx, h]
      · have hyx : ¬ y.toNat = x.toNat := fun h => hxy h.symm
        simp only [if_neg hxy, if_neg hyx, decide_eq_true_eq]
        omega

theorem charListLe_trans (a b c : List Char) (hab : charListLe a b = true)
    (hbc : charListLe b c = true) : charListLe a c = true := by
  induction a generalizing b c with
  | nil => rfl
  | cons x xs ih =>
    cases b with
    | nil => simp [charListLe] at hab
    | cons y ys =>
      cases c with
      | nil => simp [charListLe] at hbc
      | cons z zs =>
        simp only [charListLe] at hab hbc ⊢
        by_cases hxy : x.toNat = y.toNat <;> by_cases hyz : y.toNat = z.toNat
        · rw [if_pos hxy] at hab
          rw [if_pos hyz] at hbc
          rw [if_pos (hxy.trans hyz)]
          exact ih ys zs hab hbc
        · rw [if_pos hxy] at hab
          rw [if_neg hyz, decide_eq_true_eq] at hbc
          have hxz : ¬ x.toNat = z.toNat := by omega
          rw [if_neg hxz, decide_eq_true_eq]
          omega
        · rw [if_neg hxy, decide_eq_true_eq] at hab
          rw [if_pos hyz] at hbc
          have hxz : ¬ x.toNat = z.toNat := by omega
          rw [if_neg hxz, decide_eq_true_eq]
          omega
        · rw [if_neg hxy, decide_eq_true_eq] at hab
          rw [if_neg hyz, decide_eq_true_eq] at hbc
          have hxz : ¬ x.toNat = z.toNat := by omega
          rw [if_neg hxz, decide_eq_true_eq]
          omega

instance strLeTotal : IsTotal String (fun a b => strLe a b = true) :=
  ⟨fun a b => charListLe_total a.data b.data⟩

instance strLeTrans : IsTrans String (fun a b => strLe a b = true) :=
  ⟨fun a b c => charListLe_trans a.data b.data c.data⟩

/-- A distinct key of an association list looks up to its paired value. -/
theorem getOpt_eq_of_mem_of_nodup {fields : List (String × Json)} {k : String} {v : Json}
    (hnd : (fields.map Prod.fst).Nodup) (hm : (k, v) ∈ fields) :
    Json.getOpt fields k = some v := by
  induction fields with
  | nil => cases hm
  | cons p rest ih =>
    obtain ⟨k0, v0⟩ := p
    simp only [List.map_cons, List.nodup_cons] at hnd
    rcases List.mem_cons.mp hm with h | h
    · cases h
      simp [Json.getOpt]
    · have hne : k0 ≠ k := by
        intro he
        exact hnd.1 (he ▸ List.mem_map.mpr ⟨(k, v), h, rfl⟩)
      simp [Json.getOpt, hne]
      exact ih hnd.2 h

/-- The printed `summary` total is the sum of the per-category summary
counts, sorting being a permutation. -/
theorem summary_total_eq_sum (fields : List (String × Json)) :
    (StorageFactsProcessor.summary fields).2
      = (fields.map (fun p => StorageFactsProcessor.summaryCount p.2)).sum := by
  unfold StorageFactsProcessor.summary
  simp only [List.map_map]
  exact List.Perm.sum_eq
    (List.Perm.map _ (List.perm_insertionSort _ fields))

/-- On a benign category value the two counting rules coincide. -/
theorem summaryCount_eq_countCount {content : Json}
    (h : dataFieldBenign content = true) :
    StorageFactsProcessor.summaryCount content
      = StorageFactsProcessor.countCount content := by
  cases content with
  | obj cfields =>
    simp only [dataFieldBenign] at h
    simp only [StorageFactsProcessor.summaryCount, StorageFactsProcessor.countCount]
    cases hd : Json.getOpt cfields "data" with
    | none => rfl
    | some v =>
      rw [hd] at h
      cases v with
      | arr elems => rfl
      | obj dfields =>
        cases dfields with
        | nil => simp [Json.truthy] at h
        | cons q qs => simp [Json.truthy]
      | null => rfl
      | bool b => cases b <;> simp_all [Json.truthy]
      | num n => simp_all [Json.truthy]
      | str s => simp_all [Json.truthy]
  | null => rfl
  | bool b => rfl
  | num n => rfl
  | str s => rfl
  | arr elems => rfl

/-- With distinct keys, summing `count` over the key list is summing
`countCount` over the entries. -/
theorem countSum_keys (fields : List (String × Json))
    (hnd : (fields.map Prod.fst).Nodup) :
    ((fields.map Prod.fst).map (fun c =>
        match StorageFactsProcessor.count fields c with
        | .ok n => n
        | .error _ => 0)).sum
      = (fields.map (fun p => StorageFactsProcessor.countCount p.2)).sum := by
  induction fields with
  | nil => rfl
  | cons p rest ih =>
    obtain ⟨k, v⟩ := p
    simp only [List.map_cons, List.nodup_cons] at hnd ⊢
    simp only [List.sum_cons]
    have hhead : StorageFactsProcessor.count ((k, v) :: rest) k
        = .ok (StorageFactsProcessor.countCount v) := by
      simp [StorageFactsProcessor.count, Json.getOpt]
    rw [hhead]
    have htail : (rest.map Prod.fst).map (fun c =>
        match StorageFactsProcessor.count ((k, v) :: rest) c with
        | .ok n => n
        | .error _ => 0)
      = (rest.map Prod.fst).map (fun c =>
        match StorageFactsProcessor.count rest c with
        | .ok n => n
        | .error _ => 0) := by
      apply List.map_congr_left
      intro c hc
      have hne : k ≠ c := by
        intro he
        exact hnd.1 (he ▸ hc)
      simp [StorageFactsProcessor.count, Json.getOpt, hne]
    rw [htail, ih hnd.2]

/-! ## C1 -/

/-- C1, counterexample.  For the document `{"c": {"data": {}}}` the
total printed by `summary` is `0` — the empty dict is falsy, so
`summary`'s `1 if data_list else 0` counts it as `0` — while `count`
reports `1` for the sole category `c`; the claimed equality of the
summary total with the sum of `count(c)` over the present categories
fails on it. -/
theorem claim_C1_counterexample :
    ¬ ((StorageFactsProcessor.summary [("c", Json.obj [("data", Json.obj [])])]).2
      = (([("c", Json.obj [("data", Json.obj [])])].map Prod.fst).map (fun c =>
          match StorageFactsProcessor.count [("c", Json.obj [("data", Json.obj [])])] c with
          | .ok n => n
          | .error _ => 0)).sum) := by
  decide

/-- C1, amended.  For every FactsDocument that is a JSON object (its
keys, being Python dict keys, are distinct), the total printed by
`summary` equals the sum over all present categories `c` of the count
reported by `count(c)` — `count` succeeds on every present category, so
the error arm of the match is unreachable — provided no category value
is an object whose `'data'` field is an empty object or a truthy value
that is neither a list nor an object. -/
theorem claim_C1 (fields : List (String × Json))
    (hnd : (fields.map Prod.fst).Nodup)
    (hbenign : ∀ p ∈ fields, dataFieldBenign p.2 = true) :
    (StorageFactsProcessor.summary fields).2
      = ((fields.map Prod.fst).map (fun c =>
          match StorageFactsProcessor.count fields c with
          | .ok n => n
          | .error _ => 0)).sum := by
  rw [summary_total_eq_sum, countSum_keys fields hnd]
  congr 1
  apply List.map_congr_left
  intro p hp
  exact summaryCount_eq_countCount (hbenign p hp)

/-- C1, witness: a concrete two-category document on which the amended
claim applies, with total `3`. -/
theorem claim_C1_witness :
    (StorageFactsProcessor.summary
        [("b", Json.obj [("data", Json.arr [Json.num 1, Json.num 2])]),
         ("a", Json.obj [("data", Json.obj [("x", Json.num 1)])])]).2
      = (([("b", Json.obj [("data", Json.arr [Json.num 1, Json.num 2])]),
          ("a", Json.obj [("data", Json.obj [("x", Json.num 1)])])].map Prod.fst).map (fun c =>
          match StorageFactsProcessor.count
              [("b", Json.obj [("data", Json.arr [Json.num 1, Json.num 2])]),
               ("a", Json.obj [("data", Json.obj [("x", Json.num 1)])])] c with
          | .ok n => n
          | .error _ => 0)).sum :=
  claim_C1 _ (by decide) (by decide)

/-! ## C2 -/

/-- C2, counterexample.  For the category value `{"data": {}}` the
claim's rule — `1` when `data` is dict-shaped, including an empty
dict — gives `1`, but the per-category count `summary` prints is `0`:
the code counts a non-list `data` by Python truthiness, and the empty
dict is falsy. -/
theorem claim_C2_counterexample :
    summaryCountAsClaimed (Json.obj [("data", Json.obj [])]) = 1 ∧
    StorageFactsProcessor.summaryCount (Json.obj [("data", Json.obj [])]) = 0 :=
  ⟨rfl, rfl⟩

/-- C2, amended.  The per-category item count printed by `summary` is:
the length of `data` when the category's value is a dict whose `data`
field is a list; when `data` is present and not a list, `1` if its
value is Python-truthy (e.g. a non-empty dict) and `0` if it is falsy
(e.g. an empty dict); and `0` when the category value is not a dict or
`data` is absent. -/
theorem claim_C2 (cfields : List (String × Json)) (content : Json) :
    (content.isObj = false → StorageFactsProcessor.summaryCount content = 0) ∧
    (Json.getOpt cfields "data" = none →
      StorageFactsProcessor.summaryCount (.obj cfields) = 0) ∧
    (∀ elems, Json.getOpt cfields "data" = some (.arr elems) →
      StorageFactsProcessor.summaryCount (.obj cfields) = elems.length) ∧
    (∀ v, Json.getOpt cfields "data" = some v → v.isArr = false →
      StorageFactsProcessor.summaryCount (.obj cfields)
        = if v.truthy then 1 else 0) := by
  refine ⟨?_, ?_, ?_, ?_⟩
  · intro h
    cases content <;> simp_all [Json.isObj, StorageFactsProcessor.summaryCount]
  · intro h
    simp [StorageFactsProcessor.summaryCount, h]
  · intro elems h
    simp [StorageFactsProcessor.summaryCount, h]
  · intro v h hv
    simp only [StorageFactsProcessor.summaryCount]
    rw [h]
    cases v <;> simp_all [Json.isArr]

/-- C2, witness: the amended rule applied at the empty-dict `data`
(count `0`, the dict being falsy) and at a list-shaped `data`
(count = its length `2`). -/
theorem claim_C2_witness :
    StorageFactsProcessor.summaryCount (Json.obj [("data", Json.obj [])])
      = (if (Json.obj ([] : List (String × Json))).truthy then 1 else 0) ∧
    StorageFactsProcessor.summaryCount
        (Json.obj [("data", Json.arr [Json.null, Json.null])])
      = [Json.null, Json.null].length :=
  ⟨(claim_C2 [("data", Json.obj [])] Json.null).2.2.2 (Json.obj []) rfl rfl,
   (claim_C2 [("data", Json.arr [Json.null, Json.null])] Json.null).2.2.1
     [Json.null, Json.null] rfl⟩

/-! ## C3 -/

/-- C3.  For every document whose category value is a dict with a
list-shaped `data` field, `filter(category, key, value, path)` writes
`{"data": kept}` where `kept` is exactly the sub-sequence, in original
order, of the items that are objects whose field `key` equals `value`
under exact string equality (`List.filter` keeps exactly the matching
items in order; the kept list is a sublist of the input); and the
process exits with status 1 when the category is absent, its value is
not a dict with a `data` field, or `data` is not a list. -/
theorem claim_C3 (fields : List (String × Json)) (category key value output : String)
    (compareLoad : LoadResult) :
    (∀ cfs items, Json.getOpt fields category = some (.obj cfs) →
      Json.getOpt cfs "data" = some (.arr items) →
      StorageFactsProcessor.filter fields category key value
        = .ok (.obj [("data", .arr
            (items.filter (StorageFactsProcessor.keepItem key value)))]) ∧
      (items.filter (StorageFactsProcessor.keepItem key value)).Sublist items ∧
      runCommand (.filterCmd category key value output) (.ok (.obj fields)) compareLoad
        = ⟨0, [(output, .obj [("data", .arr
            (items.filter (StorageFactsProcessor.keepItem key value)))])], []⟩) ∧
    (∀ item, StorageFactsProcessor.keepItem key value item = true ↔
      ∃ ifields, item = .obj ifields ∧
        Json.getOpt ifields key = some (.str value)) ∧
    (Json.getOpt fields category = none →
      (runCommand (.filterCmd category key value output)
        (.ok (.obj fields)) compareLoad).exitCode = 1) ∧
    (∀ content, Json.getOpt fields category = some content → content.isObj = false →
      (runCommand (.filterCmd category key value output)
        (.ok (.obj fields)) compareLoad).exitCode = 1) ∧
    (∀ cfs, Json.getOpt fields category = some (.obj cfs) →
      Json.getOpt cfs "data" = none →
      (runCommand (.filterCmd category key value output)
        (.ok (.obj fields)) compareLoad).exitCode = 1) ∧
    (∀ cfs v, Json.getOpt fields category = some (.obj cfs) →
      Json.getOpt cfs "data" = some v → v.isArr = false →
      (runCommand (.filterCmd category key value output)
        (.ok (.obj fields)) compareLoad).exitCode = 1) := by
  refine ⟨?_, ?_, ?_, ?_, ?_, ?_⟩
  · intro cfs items h1 h2
    have hfil : StorageFactsProcessor.filter fields category key value
        = .ok (.obj [("data", .arr
            (items.filter (StorageFactsProcessor.keepItem key value)))]) := by
      simp only [StorageFactsProcessor.filter, h1, h2]
    exact ⟨hfil, List.filter_sublist items, by
      simp only [runCommand, hfil]⟩
  · intro item
    constructor
    · intro h
      cases item with
      | obj ifields =>
        refine ⟨ifields, rfl, ?_⟩
        simp only [StorageFactsProcessor.keepItem, StorageFactsProcessor.itemGet,
          Json.isObj, Bool.true_and] at h
        cases hg : Json.getOpt ifields key with
        | none => rw [hg] at h; simp [StorageFactsProcessor.pyEqStr] at h
        | some w =>
          rw [hg] at h
          cases w with
          | str s =>
            simp only [StorageFactsProcessor.pyEqStr, beq_iff_eq] at h
            rw [h]
          | null => simp [StorageFactsProcessor.pyEqStr] at h
          | bool b => simp [StorageFactsProcessor.pyEqStr] at h
          | num n => simp [StorageFactsProcessor.pyEqStr] at h
          | arr elems => simp [StorageFactsProcessor.pyEqStr] at h
          | obj ofields => simp [StorageFactsProcessor.pyEqStr] at h
      | null => simp [StorageFactsProcessor.keepItem, Json.isObj] at h
      | bool b => simp [StorageFactsProcessor.keepItem, Json.isObj] at h
      | num n => simp [StorageFactsProcessor.keepItem, Json.isObj] at h
      | str s => simp [StorageFactsProcessor.keepItem, Json.isObj] at h
      | arr elems => simp [StorageFactsProcessor.keepItem, Json.isObj] at h
    · rintro ⟨ifields, rfl, hm⟩
      simp [StorageFactsProcessor.keepItem, StorageFactsProcessor.itemGet, Json.isObj,
        hm, StorageFactsProcessor.pyEqStr]
  · intro h
    simp only [runCommand, StorageFactsProcessor.filter, h]
  · intro content h hni
    cases content <;>
      simp_all [runCommand, StorageFactsProcessor.filter, Json.isObj]
  · intro cfs h1 h2
    simp only [runCommand, StorageFactsProcessor.filter, h1, h2]
  · intro cfs v h1 h2 hv
    cases v <;>
      simp_all [runCommand, StorageFactsProcessor.filter, Json.isArr]

/-- C3, witness: filtering a three-item category on `k = "v"` keeps
exactly the two matching object items, in order. -/
theorem claim_C3_witness :
    StorageFactsProcessor.filter
        [("cat", Json.obj [("data", Json.arr
          [Json.obj [("k", Json.str "v")], Json.str "x",
           Json.obj [("k", Json.str "w")], Json.obj [("k", Json.str "v"), ("z", Json.null)]])])]
        "cat" "k" "v"
      = .ok (Json.obj [("data", Json.arr
          [Json.obj [("k", Json.str "v")],
           Json.obj [("k", Json.str "v"), ("z", Json.null)]])]) := by
  have h := ((claim_C3
      [("cat", Json.obj [("data", Json.arr
        [Json.obj [("k", Json.str "v")], Json.str "x",
         Json.obj [("k", Json.str "w")], Json.obj [("k", Json.str "v"), ("z", Json.null)]])])]
      "cat" "k" "v" "out" .fileNotFound).1
      [("data", Json.arr
        [Json.obj [("k", Json.str "v")], Json.str "x",
         Json.obj [("k", Json.str "w")], Json.obj [("k", Json.str "v"), ("z", Json.null)]])]
      [Json.obj [("k", Json.str "v")], Json.str "x",
       Json.obj [("k", Json.str "w")], Json.obj [("k", Json.str "v"), ("z", Json.null)]]
      rfl rfl).1
  exact h.trans rfl

/-! ## C4 -/

/-- C4.  For every document and every category present in it,
`extract(category, path)` writes the category's value verbatim — the
recorded write is that value, and the `json` dump/load round trip
returns it, so reading and parsing `path` yields a value deep-equal to
`document[category]` — and exits 0.  When the category is absent the
process exits with status 1 and the error message lists the available
categories, sorted. -/
theorem claim_C4 (fields : List (String × Json)) (category output : String)
    (compareLoad : LoadResult) :
    (∀ v, Json.getOpt fields category = some v →
      runCommand (.extractCmd category output) (.ok (.obj fields)) compareLoad
        = ⟨0, [(output, v)], []⟩) ∧
    (Json.getOpt fields category = none →
      (runCommand (.extractCmd category output)
          (.ok (.obj fields)) compareLoad).exitCode = 1 ∧
      StorageFactsProcessor.extract fields category
        = .error (sortStrings (fields.map Prod.fst))) := by
  constructor
  · intro v h
    simp only [runCommand, StorageFactsProcessor.extract, h]
  · intro h
    have he : StorageFactsProcessor.extract fields category
        = .error (sortStrings (fields.map Prod.fst)) := by
      simp only [StorageFactsProcessor.extract, h]
    refine ⟨?_, he⟩
    simp only [runCommand, he]

/-- C4, witness: extracting a present category returns its value with
exit 0, and extracting from a one-category document an absent category
errors with the sorted listing of the available categories. -/
theorem claim_C4_witness :
    runCommand (.extractCmd "b" "out.json")
        (.ok (Json.obj [("b", Json.num 7), ("a", Json.null)])) .fileNotFound
      = ⟨0, [("out.json", Json.num 7)], []⟩ ∧
    StorageFactsProcessor.extract [("b", Json.num 7), ("a", Json.null)] "zz"
      = .error (sortStrings ["b", "a"]) :=
  ⟨(claim_C4 [("b", Json.num 7), ("a", Json.null)] "b" "out.json" .fileNotFound).1
      (Json.num 7) rfl,
   ((claim_C4 [("b", Json.num 7), ("a", Json.null)] "zz" "out.json" .fileNotFound).2
      rfl).2⟩

/-! ## C5 -/

/-- C5, counterexample.  The category `c` has a `'data'` field that is
the non-empty list `[5]`, yet `export_csv` does not write a header row
followed by one data row per item: `csv.DictWriter` raises an uncaught
`AttributeError` on the non-dict item `5`, killing the process. -/
theorem claim_C5_counterexample :
    Json.getOpt [("c", Json.obj [("data", Json.arr [Json.num 5])])] "c"
      = some (Json.obj [("data", Json.arr [Json.num 5])]) ∧
    StorageFactsProcessor.export_csv
        [("c", Json.obj [("data", Json.arr [Json.num 5])])] "c"
      = .error .writerCrash :=
  ⟨rfl, rfl⟩

/-- C5, amended.  For every category whose `'data'` is a non-empty list
of objects, `export` writes a CSV containing a header row equal to the
sorted union of the keys of all the items — sorted, without duplicates,
and containing exactly the keys occurring in some item — followed by
exactly one data row per input item; and the process exits with
status 1 when the category is absent, its value is not a dict with a
`'data'` field, `'data'` is not a list, or the list is empty. -/
theorem claim_C5 (fields : List (String × Json)) (category output : String)
    (compareLoad : LoadResult) :
    (∀ cfs items, Json.getOpt fields category = some (.obj cfs) →
      Json.getOpt cfs "data" = some (.arr items) → items ≠ [] →
      items.all Json.isObj = true →
      StorageFactsProcessor.export_csv fields category
        = .ok (sortStrings (items.flatMap StorageFactsProcessor.itemKeys).dedup,
               items.map (StorageFactsProcessor.csvRow
                 (sortStrings (items.flatMap StorageFactsProcessor.itemKeys).dedup))) ∧
      (∀ k, k ∈ sortStrings (items.flatMap StorageFactsProcessor.itemKeys).dedup ↔
        ∃ item ∈ items, k ∈ StorageFactsProcessor.itemKeys item) ∧
      (sortStrings (items.flatMap StorageFactsProcessor.itemKeys).dedup).Nodup ∧
      List.Sorted (fun a b => strLe a b = true)
        (sortStrings (items.flatMap StorageFactsProcessor.itemKeys).dedup) ∧
      (items.map (StorageFactsProcessor.csvRow
          (sortStrings (items.flatMap StorageFactsProcessor.itemKeys).dedup))).length
        = items.length) ∧
    (Json.getOpt fields category = none →
      (runCommand (.exportCmd category output)
        (.ok (.obj fields)) compareLoad).exitCode = 1) ∧
    (∀ content, Json.getOpt fields category = some content → content.isObj = false →
      (runCommand (.exportCmd category output)
        (.ok (.obj fields)) compareLoad).exitCode = 1) ∧
    (∀ cfs, Json.getOpt fields category = some (.obj cfs) →
      Json.getOpt cfs "data" = none →
      (runCommand (.exportCmd category output)
        (.ok (.obj fields)) compareLoad).exitCode = 1) ∧
    (∀ cfs v, Json.getOpt fields category = some (.obj cfs) →
      Json.getOpt cfs "data" = some v → v.isArr = false →
      (runCommand (.exportCmd category output)
        (.ok (.obj fields)) compareLoad).exitCode = 1) ∧
    (∀ cfs, Json.getOpt fields category = some (.obj cfs) →
      Json.getOpt cfs "data" = some (.arr []) →
      (runCommand (.exportCmd category output)
        (.ok (.obj fields)) compareLoad).exitCode = 1) := by
  refine ⟨?_, ?_, ?_, ?_, ?_, ?_⟩
  · intro cfs items h1 h2 h3 h4
    have hne : items.isEmpty = false := List.isEmpty_eq_false.mpr h3
    refine ⟨?_, ?_, ?_, ?_, by simp⟩
    · simp only [StorageFactsProcessor.export_csv, h1, h2, hne, h4]
      rfl
    · intro k
      rw [sortStrings, List.mem_insertionSort, List.mem_dedup, List.mem_flatMap]
    · exact ((List.perm_insertionSort _ _).nodup_iff).mpr
        (List.nodup_dedup _)
    · exact List.sorted_insertionSort _ _
  · intro h
    simp only [runCommand, StorageFactsProcessor.export_csv, h]
  · intro content h hni
    cases content <;>
      simp_all [runCommand, StorageFactsProcessor.export_csv, Json.isObj]
  · intro cfs h1 h2
    simp only [runCommand, StorageFactsProcessor.export_csv, h1, h2]
  · intro cfs v h1 h2 hv
    cases v <;>
      simp_all [runCommand, StorageFactsProcessor.export_csv, Json.isArr]
  · intro cfs h1 h2
    simp only [runCommand, StorageFactsProcessor.export_csv, h1, h2]
    rfl

/-- C5, witness: exporting a two-object category yields the sorted
union header `["a", "b"]` and one row per item. -/
theorem claim_C5_witness :
    StorageFactsProcessor.export_csv
        [("c", Json.obj [("data", Json.arr
          [Json.obj [("b", Json.num 1)], Json.obj [("a", Json.null)]])])] "c"
      = .ok (["a", "b"],
             [[none, some (Json.num 1)], [some Json.null, none]]) := by
  have h := ((claim_C5
      [("c", Json.obj [("data", Json.arr
        [Json.obj [("b", Json.num 1)], Json.obj [("a", Json.null)]])])]
      "c" "out.csv" .fileNotFound).1
      [("data", Json.arr [Json.obj [("b", Json.num 1)], Json.obj [("a", Json.null)]])]
      [Json.obj [("b", Json.num 1)], Json.obj [("a", Json.null)]]
      rfl rfl (List.cons_ne_nil _ _) rfl).1
  exact h.trans rfl

/-! ## C10 -/

/-- C10.  For every export of a category whose `'data'` list consists
entirely of objects, every row's cells appear in the same sorted column
order as the header — row `i` is the header mapped through item `i`'s
field lookup — and a key that is present in some items but absent from
a given item yields the `None` restval for that cell, which the csv
writer renders as an empty field. -/
theorem claim_C10 (fields : List (String × Json)) (category : String)
    (cfs : List (String × Json)) (items : List Json)
    (h1 : Json.getOpt fields category = some (.obj cfs))
    (h2 : Json.getOpt cfs "data" = some (.arr items))
    (h3 : items ≠ [])
    (h4 : items.all Json.isObj = true) :
    ∃ header rows,
      StorageFactsProcessor.export_csv fields category = .ok (header, rows) ∧
      rows = items.map (fun item =>
        header.map (fun k => StorageFactsProcessor.itemGet item k)) ∧
      List.Sorted (fun a b => strLe a b = true) header ∧
      (∀ item ∈ items, ∀ k ∈ header,
        StorageFactsProcessor.itemGet item k = none →
        StorageFactsProcessor.csvCell (StorageFactsProcessor.itemGet item k) = "") := by
  refine ⟨sortStrings (items.flatMap StorageFactsProcessor.itemKeys).dedup,
    items.map (StorageFactsProcessor.csvRow
      (sortStrings (items.flatMap StorageFactsProcessor.itemKeys).dedup)),
    ?_, rfl, List.sorted_insertionSort _ _, ?_⟩
  · have hne : items.isEmpty = false := List.isEmpty_eq_false.mpr h3
    simp only [StorageFactsProcessor.export_csv, h1, h2, hne, h4]
    rfl
  · intro item _ k _ hnone
    rw [hnone]
    rfl

/-- C10, witness: with items `{"b": 1}` and `{"a": null, "b": 2}`, the
header is `["a", "b"]`; the first item lacks `"a"`, so its row has the
empty-rendered `none` in the `"a"` column, and both rows follow the
header order. -/
theorem claim_C10_witness :
    ∃ header rows,
      StorageFactsProcessor.export_csv
          [("c", Json.obj [("data", Json.arr
            [Json.obj [("b", Json.num 1)],
             Json.obj [("a", Json.null), ("b", Json.num 2)]])])] "c"
        = .ok (header, rows) ∧
      rows = [Json.obj [("b", Json.num 1)],
              Json.obj [("a", Json.null), ("b", Json.num 2)]].map (fun item =>
        header.map (fun k => StorageFactsProcessor.itemGet item k)) ∧
      List.Sorted (fun a b => strLe a b = true) header ∧
      (∀ item ∈ [Json.obj [("b", Json.num 1)],
                 Json.obj [("a", Json.null), ("b", Json.num 2)]], ∀ k ∈ header,
        StorageFactsProcessor.itemGet item k = none →
        StorageFactsProcessor.csvCell (StorageFactsProcessor.itemGet item k) = "") :=
  claim_C10
    [("c", Json.obj [("data", Json.arr
      [Json.obj [("b", Json.num 1)],
       Json.obj [("a", Json.null), ("b", Json.num 2)]])])] "c"
    [("data", Json.arr
      [Json.obj [("b", Json.num 1)],
       Json.obj [("a", Json.null), ("b", Json.num 2)]])]
    [Json.obj [("b", Json.num 1)],
     Json.obj [("a", Json.null), ("b", Json.num 2)]]
    rfl rfl (List.cons_ne_nil _ _) rfl

/-! ## C6 -/

/-- C6.  `validate` records a warning for a category exactly when its
value is not an object, its `'data'` field is missing, or `'data'` is
neither a list nor a dict (first conjunct: no warning iff the value is
an object with a list- or dict-shaped `'data'`); the warnings do not
affect the process exit status — for every document whose root is an
object the `validate` invocation exits 0, whatever its categories look
like — while a root that is not an object makes the process exit status
nonzero (the `.items()` iteration raises on a non-dict root, and the
interpreter exits 1). -/
theorem claim_C6 (fields : List (String × Json)) (compareLoad : LoadResult)
    (doc : Json) :
    (∀ category content, categoryWarning category content = none ↔
      ∃ cfs, content = .obj cfs ∧ ∃ d, Json.getOpt cfs "data" = some d ∧
        (d.isArr = true ∨ d.isObj = true)) ∧
    runCommand .validateCmd (.ok (.obj fields)) compareLoad = ⟨0, [], []⟩ ∧
    (doc.isObj = false →
      (runCommand .validateCmd (.ok doc) compareLoad).exitCode = 1) := by
  refine ⟨?_, rfl, ?_⟩
  · intro category content
    constructor
    · intro h
      cases content with
      | obj cfs =>
        refine ⟨cfs, rfl, ?_⟩
        simp only [categoryWarning] at h
        cases hd : Json.getOpt cfs "data" with
        | none => rw [hd] at h; cases h
        | some d =>
          rw [hd] at h
          cases d <;> simp_all [Json.isArr, Json.isObj]
      | null => simp [categoryWarning] at h
      | bool b => simp [categoryWarning] at h
      | num n => simp [categoryWarning] at h
      | str s => simp [categoryWarning] at h
      | arr elems => simp [categoryWarning] at h
    · rintro ⟨cfs, rfl, d, hd, hdi⟩
      simp only [categoryWarning, hd]
      cases d <;> simp_all [Json.isArr, Json.isObj]
  · intro h
    cases doc <;> simp_all [runCommand, Json.isObj]

/-- C6, witness: validating a document with a malformed category (the
string-valued `"bad"`) still exits 0, a list root exits 1, and the
malformed category does get a warning. -/
theorem claim_C6_witness :
    runCommand .validateCmd
        (.ok (Json.obj [("bad", Json.str "oops")])) .fileNotFound = ⟨0, [], []⟩ ∧
    (runCommand .validateCmd (.ok (Json.arr [])) .fileNotFound).exitCode = 1 :=
  ⟨(claim_C6 [("bad", Json.str "oops")] .fileNotFound (Json.arr [])).2.1,
   (claim_C6 [("bad", Json.str "oops")] .fileNotFound (Json.arr [])).2.2 rfl⟩

/-! ## C7 -/

/-- C7.  For every processor operation, when the selected input file
does not exist or does not parse as valid JSON the process exits with
status 1 having written nothing — the constructor's `_load_json` prints
the error and calls `sys.exit(1)` before the command runs; and `diff`
does the same when its comparison file is missing or invalid. -/
theorem claim_C7 (cmd : Command) (compareLoad : LoadResult) (doc : Json) :
    runCommand cmd .fileNotFound compareLoad = ⟨1, [], []⟩ ∧
    runCommand cmd .invalidJson compareLoad = ⟨1, [], []⟩ ∧
    runCommand .diffCmd (.ok doc) .fileNotFound = ⟨1, [], []⟩ ∧
    runCommand .diffCmd (.ok doc) .invalidJson = ⟨1, [], []⟩ :=
  ⟨rfl, rfl, rfl, rfl⟩

/-! ## C8 -/

/-- C8, counterexample.  In role mode (`run_simple`) the aggregator
reports success on a clean external exit even though the configured
output file does not exist: the claimed success condition "exit 0 AND
output file exists AND parses as JSON" is violated, since `run_simple`
never verifies the output file. -/
theorem claim_C8_counterexample :
    StorageFactsAggregator.run_simple ⟨0, false, false⟩ = true ∧
    StorageFactsAggregator.mainExit true ⟨0, false, false⟩ = 0 ∧
    (⟨0, false, false⟩ : StorageFactsAggregator.ExecOutcome).outputExists = false :=
  ⟨rfl, rfl, rfl⟩

/-- C8, amended.  In generated-playbook mode the aggregator reports
success if and only if the external execution exits with code 0 and the
configured output file exists and parses as valid JSON; in role mode
(`run_simple`) it reports success if and only if the external execution
exits with code 0, with no verification of the output file; in both
modes the process exit status is 0 on reported success and 1
otherwise. -/
theorem claim_C8 (useRole : Bool) (env : StorageFactsAggregator.ExecOutcome) :
    (StorageFactsAggregator.run env = true ↔
      env.returncode = 0 ∧ env.outputExists = true ∧ env.outputParses = true) ∧
    (StorageFactsAggregator.run_simple env = true ↔ env.returncode = 0) ∧
    (StorageFactsAggregator.mainExit false env = 0 ↔
      StorageFactsAggregator.run env = true) ∧
    (StorageFactsAggregator.mainExit true env = 0 ↔
      StorageFactsAggregator.run_simple env = true) ∧
    (StorageFactsAggregator.mainExit useRole env = 0 ∨
      StorageFactsAggregator.mainExit useRole env = 1) := by
  obtain ⟨rc, ex, par⟩ := env
  by_cases h : rc = 0 <;> cases ex <;> cases par <;> cases useRole <;>
    simp [StorageFactsAggregator.run, StorageFactsAggregator.run_simple,
      StorageFactsAggregator.mainExit, h]

/-- C8, witness: the amended equivalences applied at a clean run with a
present, parsing output file (success in generated mode) and at a
failed external exit (failure in role mode). -/
theorem claim_C8_witness :
    StorageFactsAggregator.run ⟨0, true, true⟩ = true ∧
    StorageFactsAggregator.run_simple ⟨1, true, true⟩ ≠ true :=
  ⟨(claim_C8 false ⟨0, true, true⟩).1.mpr ⟨rfl, rfl, rfl⟩,
   fun h => by
     have := (claim_C8 true ⟨1, true, true⟩).2.1.mp h
     exact absurd this (by decide)⟩

/-! ## C9 -/

/-- C9.  The generated playbook consists of the per-category collection
tasks followed by the final aggregation of all per-category results
keyed by category name, a debug message, the save of the combined facts
to the configured output file, and a confirmation; every collection
task tolerates its own failure (`ignore_errors: true`); and for every
entry of the fixed module table there is exactly one collection step
for that category, invoking the mapped module with the shared
connection parameters and registering `<category>_result`, whose extra
structured query parameter is present exactly for `hardware_installed`
and `channel_boards`. -/
theorem claim_C9 (output_file : String) :
    StorageFactsAggregator.generate_playbook output_file
      = StorageFactsAggregator.collectionTasks ++
        [.aggregateFacts (StorageFactsAggregator.FACTS_MODULES.map Prod.fst),
         .displayDebug, .saveFacts output_file, .confirmSaved] ∧
    (∀ t ∈ StorageFactsAggregator.collectionTasks,
      StorageFactsAggregator.toleratesFailure t = true) ∧
    (∀ km ∈ StorageFactsAggregator.FACTS_MODULES,
      (StorageFactsAggregator.collectionTasks.filter
        (StorageFactsAggregator.isGetFactsFor km.1)).length = 1 ∧
      StorageFactsAggregator.PlaybookTask.getFacts km.1 km.2 true
          (StorageFactsAggregator.querySpecFor km.1) (km.1 ++ "_result") true
        ∈ StorageFactsAggregator.collectionTasks ∧
      ((StorageFactsAggregator.querySpecFor km.1).isSome = true ↔
        (km.1 = "hardware_installed" ∨ km.1 = "channel_boards"))) := by
  refine ⟨rfl, ?_, ?_⟩
  · decide
  · decide

/-- C9, witness: the `ldevs` category has exactly one collection step,
its task invokes the mapped ldev facts module with no query spec, and
`hardware_installed` does carry its query spec. -/
theorem claim_C9_witness :
    (StorageFactsAggregator.collectionTasks.filter
      (StorageFactsAggregator.isGetFactsFor "ldevs")).length = 1 ∧
    ((StorageFactsAggregator.querySpecFor "hardware_installed").isSome = true ↔
      ("hardware_installed" = "hardware_installed" ∨
       "hardware_installed" = "channel_boards")) :=
  ⟨((claim_C9 "all_storage_facts.json").2.2
      ("ldevs", "hitachivantara.vspone_block.vsp.hv_ldev_facts") (by decide)).1,
   ((claim_C9 "all_storage_facts.json").2.2
      ("hardware_installed", "hitachivantara.vspone_block.vsp.hv_storage_system_monitor_facts")
      (by decide)).2.2⟩

